import Mathlib

/-!
Verification of the payment-service core of `solid-principles-python`:
value objects, the processor factory, notifier selection, the validation
chain, the builder, and the `PaymentService` orchestrator, embedded
shallowly in Lean. Python exceptions become `Except` errors; Python
truthiness of strings and optionals is made explicit; side effects of the
orchestrator are recorded as an explicit trace of `Effect`s.
-/

/-- Python truthiness of a string: non-empty. -/
def truthyStr (s : String) : Bool := !s.isEmpty

/-- Python truthiness of an optional string (`None` and `""` are falsy). -/
def truthyOpt (o : Option String) : Bool :=
  match o with
  | none => false
  | some s => !s.isEmpty

/-- `commons.ContactInfo`: optional email, optional phone. -/
structure ContactInfo where
  email : Option String := none
  phone : Option String := none
deriving DecidableEq, Repr

/-- `commons.CustomerData`: a name and contact info. -/
structure CustomerData where
  name : String
  contact_info : ContactInfo
deriving DecidableEq, Repr

/-- Modelled from the spec: `commons.PaymentType` (the `commons` package is
not under src/). The spec enumerates the payment types offline and online;
the factory's wildcard branch and the spec's unsupported-payment-type error
require values outside that enumeration to be representable, which the
`other` constructor provides. -/
inductive PaymentType where
  | OFFLINE
  | ONLINE
  | other (tag : String)
deriving DecidableEq, Repr

/-- `commons.PaymentData`: amount, source token, currency and payment type
(the `commons` package is not under src/; the fields are those the factory,
validators and spec data model use). -/
structure PaymentData where
  amount : Int
  source : String
  currency : String
  type : PaymentType := PaymentType.ONLINE
deriving DecidableEq, Repr

/-- `commons.Request`: bundles customer and payment data for the chain. -/
structure Request where
  customer_data : CustomerData
  payment_data : PaymentData
deriving DecidableEq, Repr

/-- `commons.PaymentResponse`: transaction id and status. -/
structure PaymentResponse where
  transaction_id : String
  status : String
deriving DecidableEq, Repr

/-- Refund response produced by a refund processor (boundary type). -/
structure RefundResponse where
  transaction_id : String
  status : String
deriving DecidableEq, Repr

/-- Error taxonomy of the spec; each constructor carries the message the
Python code raises (`ValueError`/`Exception` in the source). -/
inductive Err where
  | validationError (msg : String)
  | configurationError (msg : String)
  | capabilityError (msg : String)
  | processingError (msg : String)
deriving DecidableEq, Repr

/-- The concrete processor class chosen by the factory (the processor class
bodies are external collaborators; only their identity matters here). -/
inductive ProcessorKind where
  | OfflinePaymentProcessor
  | StripePaymentProcessor
  | LocalPaymentProcessor
deriving DecidableEq, Repr

/-- `factory.PaymentProcessorFactory.create_payment_processor`: dispatch on
the payment type, and for online payments on the currency; an unsupported
type raises `ValueError` (the spec's `ConfigurationError`). -/
def PaymentProcessorFactory.create_payment_processor
    (payment_data : PaymentData) : Except Err ProcessorKind :=
  match payment_data.type with
  | PaymentType.OFFLINE => Except.ok ProcessorKind.OfflinePaymentProcessor
  | PaymentType.ONLINE =>
    if payment_data.currency = "MXN" then
      Except.ok ProcessorKind.StripePaymentProcessor
    else
      Except.ok ProcessorKind.LocalPaymentProcessor
  | PaymentType.other _ =>
      Except.error (Err.configurationError "No se soporta este tipo de pago")

/-- The concrete notifier strategy chosen (`EmailNotifier` or `SMSNotifier`
with its gateway; the notifier class bodies are external collaborators). -/
inductive NotifierKind where
  | EmailNotifier
  | SMSNotifier (gateway : String)
deriving DecidableEq, Repr

/-- `main.get_notifier_implementation`: checks the phone channel first, then
the email channel; with neither it raises `ValueError`. The SMS gateway is
the one `get_sms_notifier` passes. -/
def get_notifier_implementation (customer_data : CustomerData) :
    Except Err NotifierKind :=
  if truthyOpt customer_data.contact_info.phone then
    Except.ok (NotifierKind.SMSNotifier "SMSGatewayExample")
  else if truthyOpt customer_data.contact_info.email then
    Except.ok NotifierKind.EmailNotifier
  else
    Except.error (Err.configurationError "No se puede elegir la estrategia correcta")

/-- Modelled from the spec: `validators/customer.py` (`CustomerValidator`)
is not under src/; only its caller `CustomerHandler` is. Per the spec's
request-level invariants, the customer validator rejects an empty name and
a contact info with neither email nor phone populated, raising
`ValidationError`; the messages follow the repository's sibling customer
validators. -/
def CustomerValidator.validate (customer_data : CustomerData) : Except Err Unit :=
  if !truthyStr customer_data.name then
    Except.error (Err.validationError "Invalid customer data: missing name")
  else if !(truthyOpt customer_data.contact_info.email
      || truthyOpt customer_data.contact_info.phone) then
    Except.error (Err.validationError "Invalid customer data: missing email and phone")
  else
    Except.ok ()

/-- The validation chain (`validators/chain_handler.py` holds the abstract
node; the only concrete handler under src/ is `CustomerHandler`): each node
carries an optional next handler, as set by `set_next`. -/
inductive ChainHandler where
  | customerHandler (nexHandler : Option ChainHandler)

/-- `validators/customer_handler.py` — `CustomerHandler.handle`: run the
customer validator on the request's customer data; on success forward the
request to `_nex_handler` when one exists, on failure re-raise. -/
def ChainHandler.handle : ChainHandler → Request → Except Err Unit
  | ChainHandler.customerHandler nexHandler, request => do
    CustomerValidator.validate request.customer_data
    match nexHandler with
    | some h => h.handle request
    | none => pure ()

/-- The concrete listener classes (`listeners` module; only their identity
matters to the orchestrator's fan-out). -/
inductive ListenerKind where
  | AccountabilityListener
deriving DecidableEq, Repr

/-- `listeners.ListenersManager`: an ordered registry of subscribers. -/
structure ListenersManager where
  listeners : List ListenerKind := []
deriving DecidableEq, Repr

/-- `ListenersManager.subscribe`: append a listener to the registry. -/
def ListenersManager.subscribe (m : ListenersManager) (l : ListenerKind) :
    ListenersManager :=
  { m with listeners := m.listeners ++ [l] }

/-- `loggrs.TransactionLogger` (stateless as far as the orchestrator's
control flow is concerned; its writes appear in the effect trace). -/
inductive TransactionLogger where
  | mk
deriving DecidableEq, Repr

/-- Refund-capable processor identity (`processors.refunds`). -/
inductive RefundProcKind where
  | refundProcessor (tag : String)
deriving DecidableEq, Repr

/-- Recurring-capable processor identity (`processors.recurring`). -/
inductive RecurringProcKind where
  | recurringProcessor (tag : String)
deriving DecidableEq, Repr

/-- One observable side effect of the orchestrator: a processor call, a
listener notification, a customer confirmation, or a logger write. -/
inductive Effect where
  | processorCall (c : CustomerData) (p : PaymentData)
  | listenerNotify (l : ListenerKind) (msg : String)
  | customerNotify (k : NotifierKind) (c : CustomerData)
  | logTransaction (c : CustomerData) (p : PaymentData) (r : PaymentResponse)
  | refundCall (transaction_id : String)
  | logRefund (transaction_id : String) (r : RefundResponse)
deriving DecidableEq, Repr

/-- `service.PaymentService`: the orchestrator's collaborators, as the
dataclass holds them; the two optional capabilities default to `None`. -/
structure PaymentService where
  payment_processor : ProcessorKind
  notifier : NotifierKind
  validators : ChainHandler
  logger : TransactionLogger
  listeners : ListenersManager
  recurring_processor : Option RecurringProcKind := none
  refund_processor : Option RefundProcKind := none

/-- Behaviour of the external processor boundary (spec §6): what each
concrete processor's `process_transaction` returns on given data. The
processor class bodies are external collaborators, so the orchestrator's
properties are proved for every such behaviour. -/
def ProcSem : Type :=
  ProcessorKind → CustomerData → PaymentData → Except Err PaymentResponse

/-- Behaviour of the refund-processor boundary (`refund_payment`). -/
def RefundSem : Type := RefundProcKind → String → Except Err RefundResponse

/-- Behaviour of the recurring-processor boundary
(`setup_recurring_payment`). -/
def RecurringSem : Type :=
  RecurringProcKind → CustomerData → PaymentData → Except Err PaymentResponse

/-- `PaymentService.process_transaction`: build a `Request`, run the
validation chain (re-raising its error), then call the processor, fan the
success message out to the listeners in order, send the customer
confirmation and log the transaction. The returned trace records the side
effects in program order; an exception aborts the remaining steps. -/
def PaymentService.process_transaction (s : PaymentService) (procSem : ProcSem)
    (customer_data : CustomerData) (payment_data : PaymentData) :
    Except Err PaymentResponse × List Effect :=
  match s.validators.handle
      { customer_data := customer_data, payment_data := payment_data } with
  | Except.error e => (Except.error e, [])
  | Except.ok _ =>
    match procSem s.payment_processor customer_data payment_data with
    | Except.error e =>
        (Except.error e, [Effect.processorCall customer_data payment_data])
    | Except.ok payment_response =>
        (Except.ok payment_response,
          Effect.processorCall customer_data payment_data ::
          s.listeners.listeners.map (fun l =>
            Effect.listenerNotify l
              ("Pago exitoso al evento: " ++ payment_response.transaction_id)) ++
          [Effect.customerNotify s.notifier customer_data,
           Effect.logTransaction customer_data payment_data payment_response])

/-- `PaymentService.process_refund`: with no refund processor configured,
raise immediately (`CapabilityError` in the spec's taxonomy) and perform
nothing; otherwise delegate to the refund processor and, on success, log
the refund outcome. -/
def PaymentService.process_refund (s : PaymentService) (refundSem : RefundSem)
    (transaction_id : String) : Except Err RefundResponse × List Effect :=
  match s.refund_processor with
  | none =>
      (Except.error (Err.capabilityError "this processor does not support refunds"),
        [])
  | some rp =>
    match refundSem rp transaction_id with
    | Except.error e => (Except.error e, [Effect.refundCall transaction_id])
    | Except.ok refund_response =>
        (Except.ok refund_response,
          [Effect.refundCall transaction_id,
           Effect.logRefund transaction_id refund_response])

/-- `PaymentService.setup_recurring`: with no recurring processor
configured, raise immediately; otherwise delegate and log the outcome via
`log_transaction`. -/
def PaymentService.setup_recurring (s : PaymentService)
    (recurringSem : RecurringSem) (customer_data : CustomerData)
    (payment_data : PaymentData) : Except Err PaymentResponse × List Effect :=
  match s.recurring_processor with
  | none =>
      (Except.error (Err.capabilityError "this processor does not support recurring"),
        [])
  | some rp =>
    match recurringSem rp customer_data payment_data with
    | Except.error e =>
        (Except.error e, [Effect.processorCall customer_data payment_data])
    | Except.ok recurring_response =>
        (Except.ok recurring_response,
          [Effect.processorCall customer_data payment_data,
           Effect.logTransaction customer_data payment_data recurring_response])

/-- `builder.PaymentServiceBuilder`: the dataclass's optional fields, all
defaulting to `None`. -/
structure PaymentServiceBuilder where
  payment_processor : Option ProcessorKind := none
  notifier : Option NotifierKind := none
  validator : Option ChainHandler := none
  logger : Option TransactionLogger := none
  listener : Option ListenersManager := none
  recurring_processor : Option RecurringProcKind := none
  refund_processor : Option RefundProcKind := none

/-- `PaymentServiceBuilder.set_logger`: install a `TransactionLogger` and
return the builder. -/
def PaymentServiceBuilder.set_logger (b : PaymentServiceBuilder) :
    PaymentServiceBuilder :=
  { b with logger := some TransactionLogger.mk }

/-- `PaymentServiceBuilder.set_payment_processor`: delegate to the factory;
a factory `ValueError` propagates out of the builder call. -/
def PaymentServiceBuilder.set_payment_processor (b : PaymentServiceBuilder)
    (payment_data : PaymentData) : Except Err PaymentServiceBuilder :=
  match PaymentProcessorFactory.create_payment_processor payment_data with
  | Except.error e => Except.error e
  | Except.ok p => Except.ok { b with payment_processor := some p }

/-- `PaymentServiceBuilder.set_chain_of_validations`: the wired chain is a
single `CustomerHandler` with no next handler (the second handler in the
source is commented out). -/
def PaymentServiceBuilder.set_chain_of_validations (b : PaymentServiceBuilder) :
    PaymentServiceBuilder :=
  { b with validator := some (ChainHandler.customerHandler none) }

/-- `PaymentServiceBuilder.set_notifier`: the email channel is checked
first, then the phone channel (SMS with gateway `MyCustomGateway`); with
neither a `ValueError` is raised. -/
def PaymentServiceBuilder.set_notifier (b : PaymentServiceBuilder)
    (customer_data : CustomerData) : Except Err PaymentServiceBuilder :=
  if truthyOpt customer_data.contact_info.email then
    Except.ok { b with notifier := some NotifierKind.EmailNotifier }
  else if truthyOpt customer_data.contact_info.phone then
    Except.ok { b with notifier := some (NotifierKind.SMSNotifier "MyCustomGateway") }
  else
    Except.error
      (Err.configurationError "No se puede seleccionar la clase de notificación")

/-- `PaymentServiceBuilder.set_listeners`: a fresh `ListenersManager` with
one `AccountabilityListener` subscribed. -/
def PaymentServiceBuilder.set_listeners (b : PaymentServiceBuilder) :
    PaymentServiceBuilder :=
  let manager : ListenersManager := { listeners := [] }
  let listener := manager.subscribe ListenerKind.AccountabilityListener
  { b with listener := some listener }

/-- The `missing` list computed in `PaymentServiceBuilder.build`: the names
of the five mandatory collaborators whose field is `None`, in the source's
order. -/
def PaymentServiceBuilder.missing (b : PaymentServiceBuilder) : List String :=
  (List.filter (fun p => p.2)
    [("payment_processor", b.payment_processor.isNone),
     ("notifier", b.notifier.isNone),
     ("validator", b.validator.isNone),
     ("logger", b.logger.isNone),
     ("listener", b.listener.isNone)]).map (fun p => p.1)

/-- `PaymentServiceBuilder.build`: if any of the five mandatory
collaborators is unset, raise `ValueError` carrying the `missing` names;
otherwise construct the `PaymentService` from the five (the builder's
`recurring_processor` and `refund_processor` fields are not forwarded). -/
def PaymentServiceBuilder.build (b : PaymentServiceBuilder) :
    Except Err PaymentService :=
  match b.payment_processor, b.notifier, b.validator, b.logger, b.listener with
  | some pp, some n, some v, some lg, some ls =>
      Except.ok
        { payment_processor := pp, notifier := n, validators := v,
          logger := lg, listeners := ls }
  | _, _, _, _, _ =>
      Except.error
        (Err.configurationError ("Missing dependencies: " ++ toString b.missing))

/-- `solid_principles/liskov_substitution/before.py` —
`CustomerValidator.validate`: rejects a falsy name and a falsy
`contact_info`; the third check tests
`not (contact_info.email or contact_info)`. `contact_info` is a pydantic
model instance and hence always truthy, so the second check never fires and
the third reduces to the email check alone, with the whole condition always
falsy. The embedding keeps that expression verbatim. -/
def LiskovBefore.CustomerValidator.validate (customer_data : CustomerData) :
    Except Err Unit :=
  if !truthyStr customer_data.name then
    Except.error (Err.validationError "Invalid customer data: missing name")
  else if !true then
    Except.error (Err.validationError "Invalid customer data: missing contact info")
  else if !(truthyOpt customer_data.contact_info.email || true) then
    Except.error (Err.validationError "Invalid customer data: missing email and phone")
  else
    Except.ok ()

/-! ### Concrete data used by the witnesses and counterexamples -/

/-- The demo customer of `main.py` (email only). -/
def demoCustomer : CustomerData :=
  { name := "Jon Doe", contact_info := { email := some "jon@gmail.com" } }

/-- A customer with both an email and a phone populated. -/
def customerBoth : CustomerData :=
  { name := "Jon Doe",
    contact_info := { email := some "jon@gmail.com", phone := some "1234567890" } }

/-- A customer with a contact info lacking both email and phone. -/
def customerNoContact : CustomerData :=
  { name := "Jon Doe", contact_info := {} }

/-- A customer with an empty name. -/
def customerNoName : CustomerData :=
  { name := "", contact_info := { email := some "jon@gmail.com" } }

/-- The demo payment of `main.py`: online, 100 MXN from `tok_visa`. -/
def demoPayment : PaymentData :=
  { amount := 100, source := "tok_visa", currency := "MXN" }

/-- An online payment with non-positive amount and empty source. -/
def badPayment : PaymentData :=
  { amount := 0, source := "", currency := "MXN" }

/-- An offline payment. -/
def offlinePayment : PaymentData :=
  { amount := 100, source := "tok_visa", currency := "USD",
    type := PaymentType.OFFLINE }

/-- An online payment in a non-MXN currency. -/
def usdPayment : PaymentData :=
  { amount := 100, source := "tok_visa", currency := "USD" }

/-- A payment whose type is outside the supported enumeration. -/
def unknownTypePayment : PaymentData :=
  { amount := 100, source := "tok_visa", currency := "MXN",
    type := PaymentType.other "crypto" }

/-! ### C1 and C9: the processor factory -/

/-- C1: `create_payment_processor` routes an `OFFLINE` payment (any
currency) to the offline processor, an `ONLINE` payment in `MXN` to the
Stripe processor, an `ONLINE` payment in any other currency to the local
(fallback) processor, and fails with the configuration error on any other
payment type, substituting no default processor. -/
theorem C1_factory_routing (pd : PaymentData) :
    (pd.type = PaymentType.OFFLINE →
      PaymentProcessorFactory.create_payment_processor pd =
        Except.ok ProcessorKind.OfflinePaymentProcessor) ∧
    (pd.type = PaymentType.ONLINE → pd.currency = "MXN" →
      PaymentProcessorFactory.create_payment_processor pd =
        Except.ok ProcessorKind.StripePaymentProcessor) ∧
    (pd.type = PaymentType.ONLINE → pd.currency ≠ "MXN" →
      PaymentProcessorFactory.create_payment_processor pd =
        Except.ok ProcessorKind.LocalPaymentProcessor) ∧
    (∀ tag, pd.type = PaymentType.other tag →
      PaymentProcessorFactory.create_payment_processor pd =
        Except.error (Err.configurationError "No se soporta este tipo de pago")) := by
  refine ⟨fun h => ?_, fun h hc => ?_, fun h hc => ?_, fun tag h => ?_⟩
  · simp [PaymentProcessorFactory.create_payment_processor, h]
  · simp [PaymentProcessorFactory.create_payment_processor, h, hc]
  · simp [PaymentProcessorFactory.create_payment_processor, h, hc]
  · simp [PaymentProcessorFactory.create_payment_processor, h]

/-- Witness for C1 at the four concrete payments. -/
theorem C1_factory_routing_witness :
    PaymentProcessorFactory.create_payment_processor offlinePayment =
      Except.ok ProcessorKind.OfflinePaymentProcessor ∧
    PaymentProcessorFactory.create_payment_processor demoPayment =
      Except.ok ProcessorKind.StripePaymentProcessor ∧
    PaymentProcessorFactory.create_payment_processor usdPayment =
      Except.ok ProcessorKind.LocalPaymentProcessor ∧
    PaymentProcessorFactory.create_payment_processor unknownTypePayment =
      Except.error (Err.configurationError "No se soporta este tipo de pago") :=
  ⟨(C1_factory_routing offlinePayment).1 rfl,
   (C1_factory_routing demoPayment).2.1 rfl rfl,
   (C1_factory_routing usdPayment).2.2.1 rfl (by decide),
   (C1_factory_routing unknownTypePayment).2.2.2 "crypto" rfl⟩

/-- C9: the factory's routing decision is a pure function of the pair
(payment type, currency): two payment data agreeing on those two fields are
routed identically, whatever their amount and source. -/
theorem C9_factory_deterministic (pd1 pd2 : PaymentData)
    (ht : pd1.type = pd2.type) (hc : pd1.currency = pd2.currency) :
    PaymentProcessorFactory.create_payment_processor pd1 =
      PaymentProcessorFactory.create_payment_processor pd2 := by
  rcases pd1 with ⟨a1, s1, c1, t1⟩
  rcases pd2 with ⟨a2, s2, c2, t2⟩
  simp only at ht hc
  subst ht; subst hc
  cases t1 <;> simp [PaymentProcessorFactory.create_payment_processor]

/-- Witness for C9: two MXN online payments differing in amount and source
are routed to the same processor. -/
theorem C9_factory_deterministic_witness :
    PaymentProcessorFactory.create_payment_processor demoPayment =
      PaymentProcessorFactory.create_payment_processor badPayment :=
  C9_factory_deterministic demoPayment badPayment rfl rfl

/-! ### C2: notifier selection -/

/-- C2 counterexample: for a customer with both an email and a phone
populated, `main.get_notifier_implementation` chooses the SMS strategy, not
the email strategy. -/
theorem C2_counterexample :
    get_notifier_implementation customerBoth =
      Except.ok (NotifierKind.SMSNotifier "SMSGatewayExample") ∧
    get_notifier_implementation customerBoth ≠
      Except.ok NotifierKind.EmailNotifier := by
  constructor
  · rfl
  · intro h
    exact absurd (Except.ok.inj h) (by simp)

/-- C2 (amended): the builder's `set_notifier` is email-first — with a
truthy email it installs the email notifier (so a customer with both
channels gets email), with only a truthy phone the SMS notifier, and with
neither it fails with the configuration error; `main.py`'s
`get_notifier_implementation` is phone-first — with a truthy phone it
returns the SMS strategy (so a customer with both channels gets SMS), with
only a truthy email the email strategy, and with neither it fails with the
configuration error. -/
theorem C2_notifier_selection (b : PaymentServiceBuilder) (c : CustomerData) :
    (truthyOpt c.contact_info.email = true →
      b.set_notifier c =
        Except.ok { b with notifier := some NotifierKind.EmailNotifier }) ∧
    (truthyOpt c.contact_info.email = false →
      truthyOpt c.contact_info.phone = true →
      b.set_notifier c =
        Except.ok
          { b with notifier := some (NotifierKind.SMSNotifier "MyCustomGateway") }) ∧
    (truthyOpt c.contact_info.email = false →
      truthyOpt c.contact_info.phone = false →
      b.set_notifier c =
        Except.error
          (Err.configurationError "No se puede seleccionar la clase de notificación")) ∧
    (truthyOpt c.contact_info.phone = true →
      get_notifier_implementation c =
        Except.ok (NotifierKind.SMSNotifier "SMSGatewayExample")) ∧
    (truthyOpt c.contact_info.phone = false →
      truthyOpt c.contact_info.email = true →
      get_notifier_implementation c = Except.ok NotifierKind.EmailNotifier) ∧
    (truthyOpt c.contact_info.phone = false →
      truthyOpt c.contact_info.email = false →
      get_notifier_implementation c =
        Except.error
          (Err.configurationError "No se puede elegir la estrategia correcta")) := by
  refine ⟨fun he => ?_, fun he hp => ?_, fun he hp => ?_,
    fun hp => ?_, fun hp he => ?_, fun hp he => ?_⟩
  · simp [PaymentServiceBuilder.set_notifier, he]
  · simp [PaymentServiceBuilder.set_notifier, he, hp]
  · simp [PaymentServiceBuilder.set_notifier, he, hp]
  · simp [get_notifier_implementation, hp]
  · simp [get_notifier_implementation, he, hp]
  · simp [get_notifier_implementation, he, hp]

/-- Witness for C2's amended theorem at concrete customers: with both
channels the builder picks email while `get_notifier_implementation` picks
SMS, and with no channel both fail. -/
theorem C2_notifier_selection_witness :
    PaymentServiceBuilder.set_notifier {} customerBoth =
      Except.ok { notifier := some NotifierKind.EmailNotifier } ∧
    get_notifier_implementation customerBoth =
      Except.ok (NotifierKind.SMSNotifier "SMSGatewayExample") ∧
    PaymentServiceBuilder.set_notifier {} customerNoContact =
      Except.error
        (Err.configurationError "No se puede seleccionar la clase de notificación") ∧
    get_notifier_implementation customerNoContact =
      Except.error
        (Err.configurationError "No se puede elegir la estrategia correcta") :=
  ⟨(C2_notifier_selection {} customerBoth).1 rfl,
   (C2_notifier_selection {} customerBoth).2.2.2.1 rfl,
   (C2_notifier_selection {} customerNoContact).2.2.1 rfl rfl,
   (C2_notifier_selection {} customerNoContact).2.2.2.2.2 rfl rfl⟩

/-! ### C3: the builder's `build` -/

/-- C3: `build` fails with the configuration error carrying exactly the
names of the unset mandatory collaborators whenever any of the five is
unset (the `missing` list holds a name precisely when the corresponding
field is `None`), and with all five set it constructs the `PaymentService`
from them. -/
theorem C3_build (b : PaymentServiceBuilder) :
    (b.missing ≠ [] →
      b.build =
        Except.error
          (Err.configurationError ("Missing dependencies: " ++ toString b.missing))) ∧
    (b.missing = [] →
      ∃ svc : PaymentService,
        b.build = Except.ok svc ∧
        b.payment_processor = some svc.payment_processor ∧
        b.notifier = some svc.notifier ∧
        b.validator = some svc.validators ∧
        b.logger = some svc.logger ∧
        b.listener = some svc.listeners) ∧
    ("payment_processor" ∈ b.missing ↔ b.payment_processor = none) ∧
    ("notifier" ∈ b.missing ↔ b.notifier = none) ∧
    ("validator" ∈ b.missing ↔ b.validator = none) ∧
    ("logger" ∈ b.missing ↔ b.logger = none) ∧
    ("listener" ∈ b.missing ↔ b.listener = none) := by
  rcases b with ⟨pp, n, v, lg, ls, rp, rcp⟩
  cases pp <;> cases n <;> cases v <;> cases lg <;> cases ls <;>
    simp [PaymentServiceBuilder.build, PaymentServiceBuilder.missing]

/-- Witness for C3: the fresh builder misses all five collaborators and
`build` reports them; the fully configured demo builder builds. -/
theorem C3_build_witness :
    ({} : PaymentServiceBuilder).missing =
      ["payment_processor", "notifier", "validator", "logger", "listener"] ∧
    ({} : PaymentServiceBuilder).build =
      Except.error
        (Err.configurationError
          ("Missing dependencies: " ++
            toString (PaymentServiceBuilder.missing {}))) ∧
    ("notifier" ∈ ({} : PaymentServiceBuilder).missing) := by
  refine ⟨by decide, (C3_build {}).1 (by decide), ((C3_build {}).2.2.2.1).2 rfl⟩

/-! ### C4: empty customer name aborts before the processor -/

/-- Every chain the handler classes can form rejects a request whose
customer has an empty name, with the missing-name validation error. -/
theorem handle_empty_name (ch : ChainHandler) (r : Request)
    (h : r.customer_data.name = "") :
    ch.handle r =
      Except.error (Err.validationError "Invalid customer data: missing name") := by
  cases ch with
  | customerHandler nexHandler =>
    cases nexHandler <;>
      simp [ChainHandler.handle, CustomerValidator.validate, truthyStr, h,
        Bind.bind, Except.bind, show ("" : String).isEmpty = true from rfl]

/-- C4: for every service, every processor behaviour and every payment,
`process_transaction` on a customer with an empty name fails with the
missing-name `ValidationError`, its effect trace is empty, and in
particular the processor is never called. -/
theorem C4_empty_name_no_processing (s : PaymentService) (procSem : ProcSem)
    (c : CustomerData) (pd : PaymentData) (h : c.name = "") :
    (s.process_transaction procSem c pd).1 =
      Except.error (Err.validationError "Invalid customer data: missing name") ∧
    (s.process_transaction procSem c pd).2 = [] ∧
    (∀ c2 p2, Effect.processorCall c2 p2 ∉ (s.process_transaction procSem c pd).2) := by
  have hh := handle_empty_name s.validators
    { customer_data := c, payment_data := pd } h
  refine ⟨?_, ?_, ?_⟩ <;>
    simp [PaymentService.process_transaction, hh]

/-- Witness for C4 at the empty-named customer, the demo payment, a
concrete service and a processor that would succeed. -/
theorem C4_empty_name_no_processing_witness :
    (PaymentService.process_transaction
      { payment_processor := ProcessorKind.StripePaymentProcessor,
        notifier := NotifierKind.EmailNotifier,
        validators := ChainHandler.customerHandler none,
        logger := TransactionLogger.mk,
        listeners := { listeners := [ListenerKind.AccountabilityListener] } }
      (fun _ c pd =>
        Except.ok { transaction_id := c.name ++ pd.source, status := "success" })
      customerNoName demoPayment).1 =
      Except.error (Err.validationError "Invalid customer data: missing name") ∧
    (PaymentService.process_transaction
      { payment_processor := ProcessorKind.StripePaymentProcessor,
        notifier := NotifierKind.EmailNotifier,
        validators := ChainHandler.customerHandler none,
        logger := TransactionLogger.mk,
        listeners := { listeners := [ListenerKind.AccountabilityListener] } }
      (fun _ c pd =>
        Except.ok { transaction_id := c.name ++ pd.source, status := "success" })
      customerNoName demoPayment).2 = [] := by
  have h := C4_empty_name_no_processing
    { payment_processor := ProcessorKind.StripePaymentProcessor,
      notifier := NotifierKind.EmailNotifier,
      validators := ChainHandler.customerHandler none,
      logger := TransactionLogger.mk,
      listeners := { listeners := [ListenerKind.AccountabilityListener] } }
    (fun _ c pd =>
      Except.ok { transaction_id := c.name ++ pd.source, status := "success" })
    customerNoName demoPayment rfl
  exact ⟨h.1, h.2.1⟩

/-! ### C5: the wired chain and invalid payment data -/

/-- C5 counterexample: the chain installed by `set_chain_of_validations`
is the single customer handler, and on a payment with non-positive amount
and empty source (with a valid customer) it succeeds instead of failing
with a `ValidationError`. -/
theorem C5_counterexample :
    badPayment.amount ≤ 0 ∧ badPayment.source = "" ∧
    (PaymentServiceBuilder.set_chain_of_validations {}).validator =
      some (ChainHandler.customerHandler none) ∧
    (ChainHandler.customerHandler none).handle
      { customer_data := customerBoth, payment_data := badPayment } =
      Except.ok () := by
  refine ⟨by decide, rfl, rfl, rfl⟩

/-- C5 (amended): the chain wired by `set_chain_of_validations` consists of
the customer handler alone; its outcome never depends on the payment data,
and whenever the customer validator accepts the customer it succeeds — so a
payment with non-positive amount or empty source is not rejected by the
wired chain. -/
theorem C5_wired_chain_ignores_payment (b : PaymentServiceBuilder)
    (c : CustomerData) (pd pd2 : PaymentData) :
    b.set_chain_of_validations.validator =
      some (ChainHandler.customerHandler none) ∧
    (ChainHandler.customerHandler none).handle
        { customer_data := c, payment_data := pd } =
      (ChainHandler.customerHandler none).handle
        { customer_data := c, payment_data := pd2 } ∧
    (CustomerValidator.validate c = Except.ok () →
      (ChainHandler.customerHandler none).handle
          { customer_data := c, payment_data := pd } = Except.ok ()) := by
  refine ⟨rfl, ?_, fun h => ?_⟩
  · rfl
  · simp [ChainHandler.handle, Bind.bind, Except.bind, h]
    rfl

/-- Witness for C5's amended theorem at the demo customer and the invalid
payment. -/
theorem C5_wired_chain_ignores_payment_witness :
    (ChainHandler.customerHandler none).handle
      { customer_data := demoCustomer, payment_data := badPayment } =
      Except.ok () :=
  (C5_wired_chain_ignores_payment {} demoCustomer badPayment demoPayment).2.2 rfl

/-! ### C6: the Liskov-substitution customer validator -/

/-- C6: evaluating `liskov_substitution/before.py`'s
`CustomerValidator.validate` on a customer whose contact info has neither
email nor phone: it accepts the customer instead of raising the
missing-email-and-phone `ValidationError`, because its third check tests
the always-truthy `contact_info` instead of `contact_info.phone`. -/
theorem C6_liskov_validator_accepts_no_contact :
    LiskovBefore.CustomerValidator.validate customerNoContact = Except.ok () ∧
    truthyOpt customerNoContact.contact_info.email = false ∧
    truthyOpt customerNoContact.contact_info.phone = false := by
  refine ⟨rfl, rfl, rfl⟩

/-! ### C7: atomicity of `process_transaction` on processing failure -/

/-- C7: if validation passed but the processor's `process_transaction`
raises, the orchestrator propagates that error and performs no further side
effect: the trace is exactly the processor call — no listener notification,
no customer confirmation, no log entry. -/
theorem C7_atomic_on_processing_failure (s : PaymentService)
    (procSem : ProcSem) (c : CustomerData) (pd : PaymentData) (e : Err)
    (hv : s.validators.handle { customer_data := c, payment_data := pd } =
      Except.ok ())
    (hp : procSem s.payment_processor c pd = Except.error e) :
    s.process_transaction procSem c pd =
      (Except.error e, [Effect.processorCall c pd]) ∧
    (∀ l msg, Effect.listenerNotify l msg ∉ (s.process_transaction procSem c pd).2) ∧
    (∀ k c2, Effect.customerNotify k c2 ∉ (s.process_transaction procSem c pd).2) ∧
    (∀ c2 p2 r, Effect.logTransaction c2 p2 r ∉
      (s.process_transaction procSem c pd).2) := by
  refine ⟨?_, ?_, ?_, ?_⟩ <;>
    simp [PaymentService.process_transaction, hv, hp]

/-- Witness for C7: a concrete service whose processor declines the demo
payment performs only the processor call and propagates the
`ProcessingError`. -/
theorem C7_atomic_on_processing_failure_witness :
    PaymentService.process_transaction
      { payment_processor := ProcessorKind.StripePaymentProcessor,
        notifier := NotifierKind.EmailNotifier,
        validators := ChainHandler.customerHandler none,
        logger := TransactionLogger.mk,
        listeners := { listeners := [ListenerKind.AccountabilityListener] } }
      (fun _ _ _ => Except.error (Err.processingError "card declined"))
      demoCustomer demoPayment =
      (Except.error (Err.processingError "card declined"),
        [Effect.processorCall demoCustomer demoPayment]) :=
  (C7_atomic_on_processing_failure
    { payment_processor := ProcessorKind.StripePaymentProcessor,
      notifier := NotifierKind.EmailNotifier,
      validators := ChainHandler.customerHandler none,
      logger := TransactionLogger.mk,
      listeners := { listeners := [ListenerKind.AccountabilityListener] } }
    (fun _ _ _ => Except.error (Err.processingError "card declined"))
    demoCustomer demoPayment (Err.processingError "card declined")
    rfl rfl).1

/-! ### C8: `process_refund` -/

/-- C8: `process_refund` raises the capability error with an empty effect
trace exactly when no refund processor is configured; with one configured
it delegates — a successful refund is followed by the `log_refund` entry
and returned, a failing delegation propagates after the refund call alone. -/
theorem C8_process_refund (s : PaymentService) (refundSem : RefundSem)
    (tid : String) :
    (s.refund_processor = none →
      s.process_refund refundSem tid =
        (Except.error (Err.capabilityError "this processor does not support refunds"),
          [])) ∧
    (∀ rp, s.refund_processor = some rp →
      (∀ r, refundSem rp tid = Except.ok r →
        s.process_refund refundSem tid =
          (Except.ok r, [Effect.refundCall tid, Effect.logRefund tid r])) ∧
      (∀ e, refundSem rp tid = Except.error e →
        s.process_refund refundSem tid = (Except.error e, [Effect.refundCall tid]))) ∧
    (((s.process_refund refundSem tid).1 =
        Except.error (Err.capabilityError "this processor does not support refunds") ∧
      (s.process_refund refundSem tid).2 = []) ↔ s.refund_processor = none) := by
  refine ⟨fun h => ?_, fun rp h => ⟨fun r hr => ?_, fun e he => ?_⟩, ?_⟩
  · simp [PaymentService.process_refund, h]
  · simp [PaymentService.process_refund, h, hr]
  · simp [PaymentService.process_refund, h, he]
  · constructor
    · intro hcap
      rcases hh : s.refund_processor with _ | rp
      · rfl
      · rcases hr : refundSem rp tid with e | r <;>
          simp [PaymentService.process_refund, hh, hr] at hcap
    · intro h
      simp [PaymentService.process_refund, h]

/-- Witness for C8: a service without a refund processor raises the
capability error with no effects; the same service with one configured
delegates and logs. -/
theorem C8_process_refund_witness :
    PaymentService.process_refund
      { payment_processor := ProcessorKind.StripePaymentProcessor,
        notifier := NotifierKind.EmailNotifier,
        validators := ChainHandler.customerHandler none,
        logger := TransactionLogger.mk,
        listeners := { listeners := [ListenerKind.AccountabilityListener] } }
      (fun _ tid => Except.ok { transaction_id := tid, status := "refunded" })
      "1234567890" =
      (Except.error (Err.capabilityError "this processor does not support refunds"),
        []) ∧
    PaymentService.process_refund
      { payment_processor := ProcessorKind.StripePaymentProcessor,
        notifier := NotifierKind.EmailNotifier,
        validators := ChainHandler.customerHandler none,
        logger := TransactionLogger.mk,
        listeners := { listeners := [ListenerKind.AccountabilityListener] },
        refund_processor := some (RefundProcKind.refundProcessor "stripe") }
      (fun _ tid => Except.ok { transaction_id := tid, status := "refunded" })
      "1234567890" =
      (Except.ok { transaction_id := "1234567890", status := "refunded" },
        [Effect.refundCall "1234567890",
         Effect.logRefund "1234567890"
           { transaction_id := "1234567890", status := "refunded" }]) :=
  ⟨(C8_process_refund
      { payment_processor := ProcessorKind.StripePaymentProcessor,
        notifier := NotifierKind.EmailNotifier,
        validators := ChainHandler.customerHandler none,
        logger := TransactionLogger.mk,
        listeners := { listeners := [ListenerKind.AccountabilityListener] } }
      (fun _ tid => Except.ok { transaction_id := tid, status := "refunded" })
      "1234567890").1 rfl,
   ((C8_process_refund
      { payment_processor := ProcessorKind.StripePaymentProcessor,
        notifier := NotifierKind.EmailNotifier,
        validators := ChainHandler.customerHandler none,
        logger := TransactionLogger.mk,
        listeners := { listeners := [ListenerKind.AccountabilityListener] },
        refund_processor := some (RefundProcKind.refundProcessor "stripe") }
      (fun _ tid => Except.ok { transaction_id := tid, status := "refunded" })
      "1234567890").2.1 (RefundProcKind.refundProcessor "stripe") rfl).1
      { transaction_id := "1234567890", status := "refunded" } rfl⟩

/-! ### C10: builder-built services have no optional capabilities -/

/-- C10: every service `build` returns has `refund_processor = None` and
`recurring_processor = None` — `build` forwards neither field, even when
set on the builder — so `process_refund` and `setup_recurring` on such a
service always raise the unsupported-capability errors, with no side
effects. -/
theorem C10_built_service_no_optional_capabilities (b : PaymentServiceBuilder)
    (svc : PaymentService) (h : b.build = Except.ok svc) :
    svc.refund_processor = none ∧ svc.recurring_processor = none ∧
    (∀ refundSem tid, svc.process_refund refundSem tid =
      (Except.error (Err.capabilityError "this processor does not support refunds"),
        [])) ∧
    (∀ recurringSem c pd, svc.setup_recurring recurringSem c pd =
      (Except.error (Err.capabilityError "this processor does not support recurring"),
        [])) := by
  rcases b with ⟨pp, n, v, lg, ls, rp, rcp⟩
  cases pp <;> cases n <;> cases v <;> cases lg <;> cases ls <;>
    simp [PaymentServiceBuilder.build] at h
  rcases h with rfl
  refine ⟨rfl, rfl, fun refundSem tid => rfl, fun recurringSem c pd => rfl⟩

/-- Witness for C10: the demo wiring of `main.py` — even with a refund
processor set on the builder — yields a service whose `process_refund`
raises the capability error. -/
theorem C10_built_service_no_optional_capabilities_witness :
    PaymentService.process_refund
      { payment_processor := ProcessorKind.StripePaymentProcessor,
        notifier := NotifierKind.EmailNotifier,
        validators := ChainHandler.customerHandler none,
        logger := TransactionLogger.mk,
        listeners := { listeners := [ListenerKind.AccountabilityListener] } }
      (fun _ tid => Except.ok { transaction_id := tid, status := "refunded" })
      "1234567890" =
      (Except.error (Err.capabilityError "this processor does not support refunds"),
        []) :=
  (C10_built_service_no_optional_capabilities
    { payment_processor := some ProcessorKind.StripePaymentProcessor,
      notifier := some NotifierKind.EmailNotifier,
      validator := some (ChainHandler.customerHandler none),
      logger := some TransactionLogger.mk,
      listener := some { listeners := [ListenerKind.AccountabilityListener] },
      refund_processor := some (RefundProcKind.refundProcessor "stripe") }
    { payment_processor := ProcessorKind.StripePaymentProcessor,
      notifier := NotifierKind.EmailNotifier,
      validators := ChainHandler.customerHandler none,
      logger := TransactionLogger.mk,
      listeners := { listeners := [ListenerKind.AccountabilityListener] } }
    rfl).2.2.1
    (fun _ tid => Except.ok { transaction_id := tid, status := "refunded" })
    "1234567890"
